import Mathlib

/-!
# Swift-capital-fee backend: verification of the specification against the source

The repository contains two Express server variants:

* `src/unnamed/part_000` — the database-backed variant ("DB variant"): a
  Postgres ledger of `users` (phone, balance, has_paid_fee) and
  `transactions` (reference, user_phone, type, amount, status, description,
  metadata), endpoints `/pay`, `/withdraw`, `/balance/:phone`,
  `/transactions/:phone`, `/receipt/:reference`, `/callback`, and a
  15-second poll loop that settles a service-fee payment (credit balance,
  mark fee paid, create a `loan_disbursement` transaction).
* `src/server.js` — the legacy variant: a `receipts.json` store keyed by
  reference, the same phone normalizer and poll-loop status mapping, a
  webhook processor `processWebhookData`, and a cron job that releases
  loans 24 hours after a receipt enters `processing`.

This file is a shallow embedding of the parts of both variants that the
specification's claims are about.  Request handlers become pure functions
from an explicit store state (plus the request and the gateway's response,
modelled as data) to a response and a new state; the wall clock
(`Date.now()`) is an explicit `Nat` parameter.  JavaScript's `x || d`
defaulting on falsy values (null/undefined, `0`, `""`) is modelled by
`jsOrInt` / `jsOrStr` on `Option` values.
-/

/-- The digit filter of `String(phone).replace(/\D/g, "")`: keep the ASCII
digits `0`-`9` of the input, in order. -/
def stripNonDigits (s : String) : String :=
  String.mk (s.data.filter Char.isDigit)

/-- JS `s.startsWith(p)`, computed on the character lists (all inputs here
are ASCII digit strings, so code-unit and character indexing agree). -/
def strStartsWith (s p : String) : Bool :=
  p.data.isPrefixOf s.data

/-- JS `s.substring(n)`, computed on the character lists. -/
def strDrop (s : String) (n : Nat) : String :=
  String.mk (s.data.drop n)

/-- JS `s.toLowerCase()`, computed characterwise on the character list
(gateway status strings are ASCII). -/
def strToLower (s : String) : String :=
  String.mk (s.data.map Char.toLower)

/-- `formatPhone` — identical in both variants (`src/server.js` lines 63-70,
`src/unnamed/part_000` lines 82-89).  A falsy input (empty string) is
rejected, non-digits are stripped, then the three accepted shapes are
normalized to the canonical `254XXXXXXXXX` form; anything else is `none`
(the JS function returns `null`). -/
def formatPhone (phone : String) : Option String :=
  if phone = "" then none
  else
    let digits := stripNonDigits phone
    if digits.length = 9 ∧ strStartsWith digits "7" then some ("254" ++ digits)
    else if digits.length = 10 ∧ strStartsWith digits "07" then some ("254" ++ strDrop digits 1)
    else if digits.length = 12 ∧ strStartsWith digits "254" then some digits
    else none

/-- The phone-normalization shape dispatch exactly as the specification
words it (§4.1): strip non-digits, then accept the three shapes, otherwise
fail.  Stated separately from `formatPhone` (which in addition
short-circuits on an empty input before stripping) so that agreement of
the two is a theorem rather than a definition. -/
def phoneSpecShape (s : String) : Option String :=
  let d := stripNonDigits s
  if d.length = 9 ∧ strStartsWith d "7" then some ("254" ++ d)
  else if d.length = 10 ∧ strStartsWith d "07" then some ("254" ++ strDrop d 1)
  else if d.length = 12 ∧ strStartsWith d "254" then some d
  else none

/-- JavaScript `x || d` for a numeric field: `null`/`undefined` (`none`)
and the number `0` are falsy and select the default. -/
def jsOrInt (x : Option Int) (d : Int) : Int :=
  match x with
  | none => d
  | some v => if v = 0 then d else v

/-- JavaScript `x || d` for a string field: `null`/`undefined` (`none`) and
the empty string are falsy and select the default. -/
def jsOrStr (x : Option String) (d : String) : String :=
  match x with
  | none => d
  | some s => if s = "" then d else s

/-!
## DB variant (`src/unnamed/part_000`): data model and ledger operations

Stores are modelled as in-order lists (insertion order = `created_at`
order, since references are generated from a strictly growing clock).
Monetary amounts are integers; `DECIMAL` columns and JS numbers only ever
hold the integral values produced by `Math.round` / integer literals in
the flows under verification.
-/

/-- A row of the `users` table (the timestamp columns are dropped; nothing
under verification reads them). -/
structure User where
  phone : String
  balance : Int
  has_paid_fee : Bool
deriving Repr, DecidableEq

/-- The `metadata` JSONB bag of a transaction, restricted to the keys the
source ever writes (`transaction_id` and `loan_amount` on a service fee,
`related_payment` on a disbursement, `withdrawal_to` on a withdrawal). -/
structure Metadata where
  transaction_id : Option String := none
  loan_amount : Option Int := none
  related_payment : Option String := none
  withdrawal_to : Option String := none
deriving Repr, DecidableEq

/-- A row of the `transactions` table.  `amount` is an `Option` because the
error path of `/pay` inserts `amount: null` when the request carried no
amount. -/
structure Txn where
  reference : String
  user_phone : String
  type : String
  amount : Option Int
  status : String
  description : String
  metadata : Metadata
deriving Repr, DecidableEq

/-- The database state: both tables, rows in insertion order. -/
structure Ledger where
  users : List User
  transactions : List Txn
deriving Repr, DecidableEq

/-- `SELECT * FROM users WHERE phone = $1` (the `UNIQUE` constraint makes
the first match the only one). -/
def findUser (st : Ledger) (phone : String) : Option User :=
  st.users.find? (fun u => u.phone == phone)

/-- `getOrCreateUser` (part_000 lines 91-107): return the existing row, or
insert one with zero balance and `has_paid_fee = FALSE`. -/
def getOrCreateUser (st : Ledger) (phone : String) : User × Ledger :=
  match st.users.find? (fun u => u.phone == phone) with
  | some u => (u, st)
  | none =>
      let u : User := { phone := phone, balance := 0, has_paid_fee := false }
      (u, { st with users := st.users ++ [u] })

/-- `updateUserBalance` (part_000 lines 109-121): signed delta on the
matching row, no clamping, no sufficiency check.  `add = true` is the
`'add'` operation, `add = false` is `'subtract'`. -/
def updateUserBalance (st : Ledger) (phone : String) (amount : Int) (add : Bool) : Ledger :=
  { st with
    users := st.users.map fun u =>
      if u.phone == phone then
        { u with balance := if add then u.balance + amount else u.balance - amount }
      else u }

/-- `markUserFeePaid` (part_000 lines 123-134): set `has_paid_fee = TRUE`
on the matching row. -/
def markUserFeePaid (st : Ledger) (phone : String) : Ledger :=
  { st with
    users := st.users.map fun u =>
      if u.phone == phone then { u with has_paid_fee := true } else u }

/-- `createTransaction` (part_000 lines 136-148): `INSERT` a row; the
`UNIQUE` constraint on `reference` makes the insert throw on a duplicate,
modelled as `none`. -/
def createTransaction (st : Ledger) (t : Txn) : Option Ledger :=
  if st.transactions.any (fun x => x.reference == t.reference) then none
  else some { st with transactions := st.transactions ++ [t] }

/-- `updateTransaction` (part_000 lines 150-164), at the only patch shape
the source uses: `{ status }`. -/
def updateTransaction (st : Ledger) (reference status : String) : Ledger :=
  { st with
    transactions := st.transactions.map fun t =>
      if t.reference == reference then { t with status := status } else t }

/-- `getUserTransactions` (part_000 lines 166-177): the user's rows, most
recent first, limited page. -/
def getUserTransactions (st : Ledger) (phone : String) (limit : Nat) : List Txn :=
  ((st.transactions.filter fun t => t.user_phone == phone).reverse).take limit

/-- The balance the ledger records for a phone (0 when the user row does
not exist, matching a fresh `getOrCreateUser` row). -/
def balanceOf (st : Ledger) (phone : String) : Int :=
  match findUser st phone with
  | some u => u.balance
  | none => 0

/-- The fee-paid flag the ledger records for a phone. -/
def feePaidOf (st : Ledger) (phone : String) : Option Bool :=
  (findUser st phone).map (fun u => u.has_paid_fee)

/-- The stored status of the transaction with the given reference. -/
def txnStatus (st : Ledger) (reference : String) : Option String :=
  (st.transactions.find? (fun t => t.reference == reference)).map (fun t => t.status)

/-- How many `loan_disbursement` rows are linked (via
`metadata.related_payment`) to the given settled reference. -/
def disbursementCount (st : Ledger) (reference : String) : Nat :=
  (st.transactions.filter fun t =>
    t.type == "loan_disbursement" && t.metadata.related_payment == some reference).length

/-- `"ORDER-" + Date.now()` — the reference returned by `/pay`. -/
def payReference (now : Nat) : String := "ORDER-" ++ Nat.repr now

/-- `"LOAN-" + Date.now()` — the reference of a disbursement row. -/
def loanReference (now : Nat) : String := "LOAN-" ++ Nat.repr now

/-- `"WD-" + Date.now()` — the reference of a withdrawal row. -/
def withdrawReference (now : Nat) : String := "WD-" ++ Nat.repr now

/-!
## DB variant: request handlers and the poll driver

The outbound gateway call of `/pay` is modelled as data: either the
initialize endpoint answered with `success: true` (carrying an optional
`transaction_reference`), answered with `success` falsy (carrying an
optional message), or the awaited call threw (timeout / network / HTTP
error), which lands in the handler's `catch` block.
-/

/-- Outcome of `axios.post(".../payment/initialize", ...)` as observed by
the `/pay` handler. -/
inductive GatewayInit where
  | ok (transaction_reference : Option String)
  | failed (message : Option String)
  | thrown (message : String)
deriving Repr, DecidableEq

/-- The JSON envelope of a `/pay` response, projected to the fields the
claims are about. -/
structure PayResponse where
  statusCode : Nat
  success : Bool
  reference : Option String
  errorMsg : Option String
deriving Repr, DecidableEq

/-- The `loan_disbursement` row the settle branch inserts (part_000 lines
359-367). -/
def loanTxnOf (reference formattedPhone : String) (loan_amount : Option Int)
    (now : Nat) : Txn :=
  { reference := loanReference now
    user_phone := formattedPhone
    type := "loan_disbursement"
    amount := some (jsOrInt loan_amount 50000)
    status := "completed"
    description := "Loan disbursement of KES " ++ toString (jsOrInt loan_amount 50000)
    metadata := { related_payment := some reference } }

/-- The settle / fail side of one tick of the poll `setInterval` in
`app.post("/pay")` of part_000 (lines 335-377).  Arguments `reference`,
`formattedPhone` and `loan_amount` are the handler locals captured by the
tick closure; `gatewayStatus` is `statusResp.data?.data?.status ?? ""`;
`now` is `Date.now()` at the tick.  Returns the new ledger and whether
`clearInterval` ran on this tick.  When the `loan_disbursement` insert
throws (duplicate reference), the preceding writes are already committed
(there is no enclosing DB transaction), the `catch` swallows the error and
the interval keeps running. -/
def pollTick (st : Ledger) (reference formattedPhone : String) (loan_amount : Option Int)
    (gatewayStatus : String) (now : Nat) : Ledger × Bool :=
  let payStatus := strToLower gatewayStatus
  if payStatus = "completed" ∨ payStatus = "processing" then
    let st1 := updateTransaction st reference "completed"
    let st2 := markUserFeePaid st1 formattedPhone
    let loanAmount := jsOrInt loan_amount 50000
    let st3 := updateUserBalance st2 formattedPhone loanAmount true
    match createTransaction st3 (loanTxnOf reference formattedPhone loan_amount now) with
    | some st4 => (st4, true)
    | none => (st3, false)
  else if payStatus = "failed" ∨ payStatus = "cancelled" then
    (updateTransaction st reference "failed", true)
  else
    (st, false)

/-- The status classification both poll loops use on each tick:
`some true` = the settle branch (`completed` / `processing`),
`some false` = the failure branch (`failed` / `cancelled`),
`none` = no branch taken, timer keeps running. -/
def pollStatusMapping (payStatus : String) : Option Bool :=
  if payStatus = "completed" ∨ payStatus = "processing" then some true
  else if payStatus = "failed" ∨ payStatus = "cancelled" then some false
  else none

/-- An inbound webhook body as read by `processWebhookData`
(`src/server.js` lines 243-273).  The four reference candidates are the
top-level `external_reference`, `transaction_reference`, `reference` and
the nested `data.transaction_reference`; `status`, `result_code`,
`failure_reason` and `result_desc` (`result?.ResultDesc`) are fields of
`payData = data.data || data`. -/
structure WebhookBody where
  external_reference : Option String := none
  transaction_reference : Option String := none
  reference : Option String := none
  data_transaction_reference : Option String := none
  status : Option String := none
  result_code : Option Int := none
  failure_reason : Option String := none
  result_desc : Option String := none
deriving Repr, DecidableEq

/-- The fixed acknowledgement body returned by `POST /callback`. -/
structure CallbackAck where
  ResultCode : Int
  ResultDesc : String
deriving Repr, DecidableEq

/-- `app.post("/callback")` of part_000 (lines 542-545): the DB variant's
webhook handler only logs the body and returns the fixed acknowledgement —
it performs no store mutation at all. -/
def callbackHandler (st : Ledger) (_body : WebhookBody) : Ledger × CallbackAck :=
  (st, { ResultCode := 0, ResultDesc := "Success" })

/-- The pending `service_fee` row inserted on the success branch of `/pay`
(part_000 lines 321-332). -/
def feeTxnOf (formattedPhone : String) (a : Int) (loan_amount : Option Int)
    (txref : Option String) (now : Nat) : Txn :=
  { reference := payReference now
    user_phone := formattedPhone
    type := "service_fee"
    amount := some a
    status := "pending"
    description := "Service fee payment for loan of KES " ++
      toString (jsOrInt loan_amount 50000)
    metadata := { transaction_id := txref
                  loan_amount := some (jsOrInt loan_amount 50000) } }

/-- The failed `service_fee` row inserted on the gateway-failure branch of
`/pay` (part_000 lines 386-394). -/
def failTxnOf (formattedPhone : String) (a : Int) (loan_amount : Option Int)
    (now : Nat) : Txn :=
  { reference := payReference now
    user_phone := formattedPhone
    type := "service_fee"
    amount := some a
    status := "failed"
    description := "STK push failed to send"
    metadata := { loan_amount := some (jsOrInt loan_amount 50000) } }

/-- The error `service_fee` row inserted inside the `catch` block of
`/pay` (part_000 lines 408-418). -/
def errTxnOf (formattedPhone : String) (a : Int) (loan_amount : Option Int)
    (now : Nat) : Txn :=
  { reference := payReference now
    user_phone := formattedPhone
    type := "service_fee"
    amount := some a
    status := "error"
    description := "System error occurred"
    metadata := { loan_amount := some (jsOrInt loan_amount 50000) } }

/-- `app.post("/pay")` of part_000 (lines 283-426).  `phone`, `amount` and
`loan_amount` are the request-body fields (`none` = absent); `gw` is the
gateway call's outcome; `now` is `Date.now()` during the handler (the
`catch` block re-reads it; within one handler run both reads fall in the
same millisecond).  The result is the response, the new ledger state, and
whether a poll interval was started.  `none` models the unhandled crash
when an insert inside the `catch` block itself throws (duplicate
reference): no response is sent. -/
def payHandler (st : Ledger) (phone : Option String) (amount : Option Int)
    (loan_amount : Option Int) (gw : GatewayInit) (now : Nat) :
    Option (PayResponse × Ledger × Bool) :=
  match phone.bind formatPhone with
  | none => some ({ statusCode := 400, success := false, reference := none,
                    errorMsg := some "Invalid phone format" }, st, false)
  | some formattedPhone =>
    match amount with
    | none => some ({ statusCode := 400, success := false, reference := none,
                      errorMsg := some "Amount must be >= 1" }, st, false)
    | some a =>
      if a < 1 then
        some ({ statusCode := 400, success := false, reference := none,
                errorMsg := some "Amount must be >= 1" }, st, false)
      else
        let reference := payReference now
        let st1 := (getOrCreateUser st formattedPhone).2
        match gw with
        | .ok txref =>
          match createTransaction st1 (feeTxnOf formattedPhone a loan_amount txref now) with
          | none => none
          | some st2 =>
            some ({ statusCode := 200, success := true, reference := some reference,
                    errorMsg := none }, st2, txref.isSome)
        | .failed msg =>
          match createTransaction st1 (failTxnOf formattedPhone a loan_amount now) with
          | none => none
          | some st2 =>
            some ({ statusCode := 400, success := false, reference := none,
                    errorMsg := some (jsOrStr msg "STK push failed to send. Try again later.") },
                  st2, false)
        | .thrown msg =>
          match createTransaction st1 (errTxnOf formattedPhone a loan_amount now) with
          | none => none
          | some st2 =>
            some ({ statusCode := 500, success := false, reference := some (payReference now),
                    errorMsg := some msg }, st2, false)

/-- The JSON envelope of `GET /receipt/:reference`, projected to status
code, `success` and the receipt's `status` field. -/
structure ReceiptResponse where
  statusCode : Nat
  success : Bool
  receiptStatus : Option String
deriving Repr, DecidableEq

/-- `app.get("/receipt/:reference")` of part_000 (lines 429-462): look the
reference up in `transactions`; 404 when absent. -/
def receiptHandler (st : Ledger) (reference : String) : ReceiptResponse :=
  match st.transactions.find? (fun t => t.reference == reference) with
  | none => { statusCode := 404, success := false, receiptStatus := none }
  | some t => { statusCode := 200, success := true, receiptStatus := some t.status }

/-- The JSON envelope of `GET /balance/:phone`. -/
structure BalanceResponse where
  statusCode : Nat
  success : Bool
  balance : Option Int
  hasPaidFee : Option Bool
deriving Repr, DecidableEq

/-- `app.get("/balance/:phone")` of part_000 (lines 182-201): reject an
invalid phone, otherwise `getOrCreateUser` and report its row. -/
def balanceHandler (st : Ledger) (phoneParam : String) : BalanceResponse × Ledger :=
  match formatPhone phoneParam with
  | none => ({ statusCode := 400, success := false, balance := none, hasPaidFee := none }, st)
  | some formattedPhone =>
    let (u, st1) := getOrCreateUser st formattedPhone
    ({ statusCode := 200, success := true, balance := some u.balance,
       hasPaidFee := some u.has_paid_fee }, st1)

/-- `app.get("/transactions/:phone")` of part_000 (lines 204-228): reject
an invalid phone, otherwise a pure `SELECT` of the user's rows. -/
def transactionsHandler (st : Ledger) (phoneParam : String) : Option (List Txn) × Ledger :=
  match formatPhone phoneParam with
  | none => (none, st)
  | some formattedPhone => (some (getUserTransactions st formattedPhone 50), st)

/-- The JSON envelope of `POST /withdraw`. -/
structure WithdrawResponse where
  statusCode : Nat
  success : Bool
  errorMsg : Option String
  reference : Option String
  newBalance : Option Int
deriving Repr, DecidableEq

/-- `app.post("/withdraw")` of part_000 (lines 231-280): phone validation,
minimum-amount check (`!amount || amount < 100`), fee-paid gate, balance
sufficiency, then insert the `processing` withdrawal row and subtract the
balance.  A throwing insert (duplicate reference) is caught and answered
with a 500 before the balance is touched. -/
def withdrawHandler (st : Ledger) (phone : Option String) (amount : Option Int)
    (now : Nat) : WithdrawResponse × Ledger :=
  match phone.bind formatPhone with
  | none => ({ statusCode := 400, success := false, errorMsg := some "Invalid phone number",
               reference := none, newBalance := none }, st)
  | some formattedPhone =>
    match amount with
    | none => ({ statusCode := 400, success := false,
                 errorMsg := some "Minimum withdrawal is KES 100",
                 reference := none, newBalance := none }, st)
    | some a =>
      if a < 100 then
        ({ statusCode := 400, success := false,
           errorMsg := some "Minimum withdrawal is KES 100",
           reference := none, newBalance := none }, st)
      else
        let (user, st1) := getOrCreateUser st formattedPhone
        if user.has_paid_fee = false then
          ({ statusCode := 403, success := false,
             errorMsg := some "You must pay the service fee before withdrawing",
             reference := none, newBalance := none }, st1)
        else if user.balance < a then
          ({ statusCode := 400, success := false, errorMsg := some "Insufficient balance",
             reference := none, newBalance := none }, st1)
        else
          let reference := withdrawReference now
          let wdTxn : Txn :=
            { reference := reference
              user_phone := formattedPhone
              type := "withdrawal"
              amount := some a
              status := "processing"
              description := "Withdrawal of KES " ++ toString a
              metadata := { withdrawal_to := some formattedPhone } }
          match createTransaction st1 wdTxn with
          | none => ({ statusCode := 500, success := false, errorMsg := some "Server error",
                       reference := none, newBalance := none }, st1)
          | some st2 =>
            ({ statusCode := 200, success := true, errorMsg := none,
               reference := some reference, newBalance := some (user.balance - a) },
             updateUserBalance st2 formattedPhone a false)

/-!
## Legacy variant (`src/server.js`): receipts store, webhook, cron

The legacy variant keeps receipts in `receipts.json`, modelled as an
association list from reference to receipt (JS object key order =
insertion order).  A receipt is modelled with the fields the webhook
processor and the cron job read or write (`status`, `status_note`,
`timestamp`); all fields are optional because `processWebhookData` creates
a bare `{}` receipt when the webhook names an unknown reference.
Timestamps are epoch milliseconds (`new Date(x).getTime()`).
-/

/-- A `receipts.json` entry, projected to the fields the webhook and cron
logic touch. -/
structure Receipt where
  status : Option String := none
  status_note : Option String := none
  timestamp : Option Nat := none
deriving Repr, DecidableEq

/-- The receipts store: reference-keyed association list. -/
abbrev Receipts := List (String × Receipt)

/-- `receipts[ref]` — first (only) entry with the key. -/
def getReceipt (rs : Receipts) (ref : String) : Option Receipt :=
  (rs.find? (fun p => p.1 == ref)).map (fun p => p.2)

/-- `receipts[ref] = r` — replace the existing entry or append a new one. -/
def setReceipt (rs : Receipts) (ref : String) (r : Receipt) : Receipts :=
  if rs.any (fun p => p.1 == ref) then
    rs.map (fun p => if p.1 == ref then (ref, r) else p)
  else rs ++ [(ref, r)]

/-- `[...].filter(Boolean)` over the four reference candidates: drop
`null`/`undefined` and empty strings, keep order. -/
def webhookRefCandidates (b : WebhookBody) : List String :=
  (([b.external_reference, b.transaction_reference, b.reference,
     b.data_transaction_reference].filterMap id).filter (fun s => s != ""))

/-- `refCandidates[0]` — the reference the webhook processor acts on. -/
def firstWebhookRef (b : WebhookBody) : Option String :=
  (webhookRefCandidates b).head?

/-- The note `processWebhookData` writes on its success branch. -/
def webhookOkNote : String := "✅ Payment verified. Loan processing started."

/-- `processWebhookData` (`src/server.js` lines 243-273): locate (or
create as `{}`) the receipt named by the first truthy candidate reference;
status `"completed"` (case-insensitive) or `result_code === 0` moves it to
`processing`, every other status — including `"processing"` itself,
`"failed"`, `"cancelled"` and unrecognized values — moves it to
`cancelled`; the timestamp is refreshed either way. -/
def processWebhookData (rs : Receipts) (b : WebhookBody) (now : Nat) : Receipts :=
  match firstWebhookRef b with
  | none => rs
  | some ref =>
    let receipt := (getReceipt rs ref).getD {}
    let status := strToLower (b.status.getD "")
    let receipt1 :=
      if status = "completed" ∨ b.result_code = some 0 then
        { receipt with status := some "processing", status_note := some webhookOkNote }
      else
        { receipt with
            status := some "cancelled"
            status_note := some (jsOrStr b.failure_reason
              (jsOrStr b.result_desc "Payment failed or cancelled.")) }
    let receipt2 := { receipt1 with timestamp := some now }
    setReceipt rs ref receipt2

/-- The webhook processor's status classification: `true` = the
`processing` branch, `false` = the `cancelled` branch.  (Unlike the poll
loops, there is no third "no change" outcome.) -/
def webhookStatusMapping (payStatus : String) (result_code : Option Int) : Bool :=
  payStatus = "completed" ∨ result_code = some 0

/-- The note the cron job writes when it releases a loan. -/
def cronReleaseNote : String := "Loan has been released to your account. Thank you."

/-- 24 hours in milliseconds, `24 * 60 * 60 * 1000`. -/
def releaseDelayMs : Nat := 86400000

/-- The per-receipt step of the cron job (`src/server.js` lines 352-368):
a `processing` receipt whose release time (`timestamp` + 24h) has been
reached becomes `loan_released` with the fixed note; every other receipt
is left alone.  A receipt without a parsable timestamp is never released
(`NaN` comparisons are false). -/
def cronUpdate (now : Nat) (r : Receipt) : Receipt :=
  if r.status = some "processing" then
    match r.timestamp with
    | some ts =>
        if ts + releaseDelayMs ≤ now then
          { r with status := some "loan_released", status_note := some cronReleaseNote }
        else r
    | none => r
  else r

/-- One run of `cron.schedule("*/5 * * * *", ...)`: apply `cronUpdate` to
every stored receipt and write the store back. -/
def cronTick (rs : Receipts) (now : Nat) : Receipts :=
  rs.map (fun p => (p.1, cronUpdate now p.2))

/-- A sample user row for concrete instantiations. -/
def sampleUser : User :=
  { phone := "254712345678", balance := 25, has_paid_fee := false }

/-- A sample pending service-fee row for concrete instantiations. -/
def sampleFeeTxn : Txn :=
  { reference := "ORDER-1"
    user_phone := "254712345678"
    type := "service_fee"
    amount := some 150
    status := "pending"
    description := "fee"
    metadata := {} }

/-- A sample ledger: one user, one pending service-fee transaction. -/
def sampleLedger : Ledger :=
  { users := [sampleUser], transactions := [sampleFeeTxn] }

/-- C9: the phone normalizer is total on strings and implements exactly the
three accepted shapes: the three sample inputs normalize to
`"254712345678"`, the two malformed samples fail, and on every input
`formatPhone` agrees with the specification's shape dispatch
`phoneSpecShape` (9 digits starting `7`; 10 digits starting `07`; 12
digits starting `254`; everything else fails). -/
theorem formatPhone_matches_spec :
    formatPhone "0712345678" = some "254712345678" ∧
    formatPhone "712345678" = some "254712345678" ∧
    formatPhone "254712345678" = some "254712345678" ∧
    formatPhone "12345" = none ∧
    formatPhone "254" = none ∧
    ∀ s : String, formatPhone s = phoneSpecShape s := by
  refine ⟨by decide, by decide, by decide, by decide, by decide, ?_⟩
  intro s
  by_cases h : s = ""
  · subst h; rfl
  · unfold formatPhone phoneSpecShape
    rw [if_neg h]

/-!
## Helper lemmas

Small facts about how each store operation moves the observation functions
(`balanceOf`, `feePaidOf`, `txnStatus`, `disbursementCount`).
-/

/-- `find?` commutes with mapping a function that does not change the
predicate's verdict. -/
theorem find?_map_eq {α : Type _} (l : List α) (f : α → α) (pred : α → Bool)
    (h : ∀ a, pred (f a) = pred a) :
    (l.map f).find? pred = (l.find? pred).map f := by
  have hpf : pred ∘ f = pred := funext h
  rw [List.find?_map, hpf]

/-- `filter` commutes with mapping a function that does not change the
predicate's verdict. -/
theorem filter_map_eq {α : Type _} (l : List α) (f : α → α) (pred : α → Bool)
    (h : ∀ a, pred (f a) = pred a) :
    (l.map f).filter pred = (l.filter pred).map f := by
  have hpf : pred ∘ f = pred := funext h
  rw [List.filter_map, hpf]

theorem transactions_markUserFeePaid (st : Ledger) (p : String) :
    (markUserFeePaid st p).transactions = st.transactions := rfl

theorem transactions_updateUserBalance (st : Ledger) (p : String) (a : Int) (add : Bool) :
    (updateUserBalance st p a add).transactions = st.transactions := rfl

theorem balanceOf_updateTransaction (st : Ledger) (r s p : String) :
    balanceOf (updateTransaction st r s) p = balanceOf st p := rfl

theorem feePaidOf_updateTransaction (st : Ledger) (r s p : String) :
    feePaidOf (updateTransaction st r s) p = feePaidOf st p := rfl

theorem findUser_markUserFeePaid (st : Ledger) (q p : String) :
    findUser (markUserFeePaid st q) p =
      (findUser st p).map
        (fun u => if u.phone == q then { u with has_paid_fee := true } else u) := by
  unfold findUser markUserFeePaid
  exact find?_map_eq _ _ _ (fun u => by by_cases hq : u.phone == q <;> simp [hq])

theorem balanceOf_markUserFeePaid (st : Ledger) (q p : String) :
    balanceOf (markUserFeePaid st q) p = balanceOf st p := by
  unfold balanceOf
  rw [findUser_markUserFeePaid]
  cases findUser st p with
  | none => rfl
  | some u => by_cases hq : u.phone = q <;> simp [hq]

theorem findUser_updateUserBalance (st : Ledger) (q p : String) (a : Int) (add : Bool) :
    findUser (updateUserBalance st q a add) p =
      (findUser st p).map
        (fun u => if u.phone == q then
          { u with balance := if add then u.balance + a else u.balance - a } else u) := by
  unfold findUser updateUserBalance
  exact find?_map_eq _ _ _ (fun u => by by_cases hq : u.phone == q <;> simp [hq])

theorem feePaidOf_updateUserBalance (st : Ledger) (q p : String) (a : Int) (add : Bool) :
    feePaidOf (updateUserBalance st q a add) p = feePaidOf st p := by
  unfold feePaidOf
  rw [findUser_updateUserBalance]
  cases findUser st p with
  | none => rfl
  | some u => by_cases hq : u.phone = q <;> simp [hq]

theorem balanceOf_updateUserBalance_add (st : Ledger) (p : String) (a : Int)
    (h : (findUser st p).isSome) :
    balanceOf (updateUserBalance st p a true) p = balanceOf st p + a := by
  unfold balanceOf
  rw [findUser_updateUserBalance]
  cases hf : findUser st p with
  | none => rw [hf] at h; cases h
  | some u =>
    have hf2 : List.find? (fun u => u.phone == p) st.users = some u := hf
    have hpu := List.find?_some hf2
    have hpu2 : u.phone = p := by simpa using hpu
    simp [hpu2]

theorem feePaidOf_markUserFeePaid_self (st : Ledger) (p : String)
    (h : (findUser st p).isSome) :
    feePaidOf (markUserFeePaid st p) p = some true := by
  unfold feePaidOf
  rw [findUser_markUserFeePaid]
  cases hf : findUser st p with
  | none => rw [hf] at h; cases h
  | some u =>
    have hf2 : List.find? (fun u => u.phone == p) st.users = some u := hf
    have hpu := List.find?_some hf2
    have hpu2 : u.phone = p := by simpa using hpu
    simp [hpu2]

theorem isSome_findUser_markUserFeePaid (st : Ledger) (q p : String) :
    (findUser (markUserFeePaid st q) p).isSome = (findUser st p).isSome := by
  rw [findUser_markUserFeePaid]; cases findUser st p <;> rfl

theorem txnStatus_markUserFeePaid (st : Ledger) (q R : String) :
    txnStatus (markUserFeePaid st q) R = txnStatus st R := rfl

theorem txnStatus_updateUserBalance (st : Ledger) (q R : String) (a : Int) (add : Bool) :
    txnStatus (updateUserBalance st q a add) R = txnStatus st R := rfl

theorem txnStatus_updateTransaction_self (st : Ledger) (R s : String)
    (h : (st.transactions.find? (fun t => t.reference == R)).isSome) :
    txnStatus (updateTransaction st R s) R = some s := by
  unfold txnStatus updateTransaction
  rw [find?_map_eq _ _ _ (fun t => by by_cases hr : t.reference == R <;> simp [hr])]
  cases hf : st.transactions.find? (fun t => t.reference == R) with
  | none => rw [hf] at h; cases h
  | some t =>
    have htr := List.find?_some hf
    have htr2 : t.reference = R := by simpa using htr
    simp [htr2]

theorem disbursementCount_updateTransaction (st : Ledger) (r s R : String) :
    disbursementCount (updateTransaction st r s) R = disbursementCount st R := by
  unfold disbursementCount updateTransaction
  rw [filter_map_eq _ _ _ (fun t => by by_cases hr : t.reference == r <;> simp [hr])]
  simp

theorem disbursementCount_markUserFeePaid (st : Ledger) (q R : String) :
    disbursementCount (markUserFeePaid st q) R = disbursementCount st R := rfl

theorem disbursementCount_updateUserBalance (st : Ledger) (q R : String) (a : Int)
    (add : Bool) :
    disbursementCount (updateUserBalance st q a add) R = disbursementCount st R := rfl

/-- A successful insert appends the row and leaves `users` alone. -/
theorem createTransaction_some {st st' : Ledger} {t : Txn}
    (h : createTransaction st t = some st') :
    st'.users = st.users ∧ st'.transactions = st.transactions ++ [t] := by
  unfold createTransaction at h
  by_cases hc : st.transactions.any (fun x => x.reference == t.reference)
  · rw [if_pos hc] at h; cases h
  · rw [if_neg hc] at h; cases h; exact ⟨rfl, rfl⟩

/-- The insert succeeds when no stored row carries the new reference. -/
theorem createTransaction_fresh (st : Ledger) (t : Txn)
    (h : ∀ x ∈ st.transactions, x.reference ≠ t.reference) :
    createTransaction st t = some { st with transactions := st.transactions ++ [t] } := by
  unfold createTransaction
  rw [if_neg]
  simp only [List.any_eq_true, not_exists, not_and]
  intro x hx
  simpa using h x hx

theorem transactions_getOrCreateUser (st : Ledger) (p : String) :
    (getOrCreateUser st p).2.transactions = st.transactions := by
  unfold getOrCreateUser
  cases st.users.find? (fun u => u.phone == p) <;> rfl

theorem balanceOf_getOrCreateUser (st : Ledger) (p : String) :
    balanceOf (getOrCreateUser st p).2 p = balanceOf st p := by
  unfold balanceOf findUser getOrCreateUser
  cases hf : st.users.find? (fun u => u.phone == p) with
  | some u => simp [hf]
  | none => simp [hf, List.find?_append]

theorem findUser_getOrCreateUser_isSome (st : Ledger) (p : String) :
    (findUser (getOrCreateUser st p).2 p).isSome := by
  unfold findUser getOrCreateUser
  cases hf : st.users.find? (fun u => u.phone == p) with
  | some u => simp [hf]
  | none => simp [hf, List.find?_append]

/-- References survive every `status`-only row update. -/
theorem fresh_after_updates (st : Ledger) (R s p : String) (a : Int) (r : String)
    (hfresh : ∀ x ∈ st.transactions, x.reference ≠ r) :
    ∀ x ∈ (updateUserBalance (markUserFeePaid (updateTransaction st R s) p) p a
        true).transactions, x.reference ≠ r := by
  intro x hx
  rw [transactions_updateUserBalance, transactions_markUserFeePaid] at hx
  unfold updateTransaction at hx
  simp only [List.mem_map] at hx
  obtain ⟨y, hy, rfl⟩ := hx
  by_cases hr : y.reference == R <;> simp [hr, hfresh y hy]

/-- The settle branch of `pollTick`, as one equation: gateway status
`completed` or `processing`, disbursement reference fresh. -/
theorem pollTick_settle_eq (st : Ledger) (R p : String) (la : Option Int)
    (gs : String) (now : Nat)
    (hgs : strToLower gs = "completed" ∨ strToLower gs = "processing")
    (hfresh : ∀ x ∈ st.transactions, x.reference ≠ loanReference now) :
    pollTick st R p la gs now =
      (let st3 := updateUserBalance (markUserFeePaid (updateTransaction st R "completed") p)
          p (jsOrInt la 50000) true
       ({ st3 with transactions := st3.transactions ++ [loanTxnOf R p la now] }, true)) := by
  have hc := createTransaction_fresh
    (updateUserBalance (markUserFeePaid (updateTransaction st R "completed") p)
      p (jsOrInt la 50000) true)
    (loanTxnOf R p la now)
    (fresh_after_updates st R "completed" p (jsOrInt la 50000) (loanReference now) hfresh)
  unfold pollTick
  rw [if_pos hgs]
  dsimp only
  rw [hc]

theorem balanceOf_append_txns (st : Ledger) (l : List Txn) (p : String) :
    balanceOf { st with transactions := st.transactions ++ l } p = balanceOf st p := rfl

theorem feePaidOf_append_txns (st : Ledger) (l : List Txn) (p : String) :
    feePaidOf { st with transactions := st.transactions ++ l } p = feePaidOf st p := rfl

theorem disbursementCount_append_one (st : Ledger) (t : Txn) (R : String)
    (ht : (t.type == "loan_disbursement" && t.metadata.related_payment == some R) = true) :
    disbursementCount { st with transactions := st.transactions ++ [t] } R
      = disbursementCount st R + 1 := by
  unfold disbursementCount
  dsimp only
  rw [List.filter_append, List.length_append]
  simp [List.filter_cons, ht]

theorem txnStatus_append_left (st : Ledger) (l : List Txn) (R : String)
    (h : (st.transactions.find? (fun t => t.reference == R)).isSome) :
    txnStatus { st with transactions := st.transactions ++ l } R = txnStatus st R := by
  unfold txnStatus
  dsimp only
  rw [List.find?_append]
  cases hf : st.transactions.find? (fun t => t.reference == R) with
  | none => rw [hf] at h; cases h
  | some t => rfl

theorem txn_find?_isSome_updateTransaction (st : Ledger) (R' s R : String) :
    ((updateTransaction st R' s).transactions.find? (fun t => t.reference == R)).isSome
      = (st.transactions.find? (fun t => t.reference == R)).isSome := by
  unfold updateTransaction
  dsimp only
  rw [find?_map_eq _ _ _ (fun t => by by_cases hr : t.reference = R' <;> simp [hr])]
  cases st.transactions.find? (fun t => t.reference == R) <;> rfl

/-- All observable effects of a settling poll tick, in one statement. -/
theorem pollTick_settle_obs (st : Ledger) (R p : String) (la : Option Int)
    (gs : String) (now : Nat)
    (hgs : strToLower gs = "completed" ∨ strToLower gs = "processing")
    (hu : (findUser st p).isSome)
    (hfresh : ∀ x ∈ st.transactions, x.reference ≠ loanReference now) :
    (pollTick st R p la gs now).2 = true ∧
    balanceOf (pollTick st R p la gs now).1 p = balanceOf st p + jsOrInt la 50000 ∧
    feePaidOf (pollTick st R p la gs now).1 p = some true ∧
    disbursementCount (pollTick st R p la gs now).1 R = disbursementCount st R + 1 ∧
    ((st.transactions.find? (fun t => t.reference == R)).isSome →
      txnStatus (pollTick st R p la gs now).1 R = some "completed") := by
  rw [pollTick_settle_eq st R p la gs now hgs hfresh]
  dsimp only
  have hu1 : (findUser (updateTransaction st R "completed") p).isSome := hu
  have hu2 : (findUser (markUserFeePaid (updateTransaction st R "completed") p) p).isSome := by
    rw [isSome_findUser_markUserFeePaid]; exact hu1
  refine ⟨rfl, ?_, ?_, ?_, ?_⟩
  · rw [balanceOf_append_txns, balanceOf_updateUserBalance_add _ _ _ hu2,
      balanceOf_markUserFeePaid, balanceOf_updateTransaction]
  · rw [feePaidOf_append_txns, feePaidOf_updateUserBalance,
      feePaidOf_markUserFeePaid_self _ _ hu1]
  · rw [disbursementCount_append_one _ _ _ (by simp [loanTxnOf]),
      disbursementCount_updateUserBalance, disbursementCount_markUserFeePaid,
      disbursementCount_updateTransaction]
  · intro hR
    have hR1 : ((updateUserBalance (markUserFeePaid (updateTransaction st R "completed") p)
        p (jsOrInt la 50000) true).transactions.find?
          (fun t => t.reference == R)).isSome := by
      rw [transactions_updateUserBalance, transactions_markUserFeePaid,
        txn_find?_isSome_updateTransaction]
      exact hR
    rw [txnStatus_append_left _ _ _ hR1, txnStatus_updateUserBalance,
      txnStatus_markUserFeePaid, txnStatus_updateTransaction_self st R "completed" hR]

/-- C8: a poll tick whose (lowercased) gateway status is outside
`completed` / `processing` / `failed` / `cancelled` leaves the whole store
untouched (in particular a `pending` transaction stays `pending`) and does
not clear the interval. -/
theorem poll_unmapped_keeps_state_and_timer (st : Ledger) (R p : String)
    (la : Option Int) (gs : String) (now : Nat)
    (h : strToLower gs ≠ "completed" ∧ strToLower gs ≠ "processing" ∧
         strToLower gs ≠ "failed" ∧ strToLower gs ≠ "cancelled") :
    pollTick st R p la gs now = (st, false) ∧
    (txnStatus st R = some "pending" →
      txnStatus (pollTick st R p la gs now).1 R = some "pending") := by
  have heq : pollTick st R p la gs now = (st, false) := by
    unfold pollTick
    dsimp only
    rw [if_neg (fun hc => hc.elim h.1 h.2.1),
        if_neg (fun hc => hc.elim h.2.2.1 h.2.2.2)]
  exact ⟨heq, fun hp => by rw [heq]; exact hp⟩

/-- Witness for C8 at a concrete pending transaction and the unmapped
gateway status `"unknown"`. -/
theorem poll_unmapped_keeps_state_and_timer_witness :
    (strToLower "unknown" ≠ "completed" ∧ strToLower "unknown" ≠ "processing" ∧
     strToLower "unknown" ≠ "failed" ∧ strToLower "unknown" ≠ "cancelled") ∧
    (pollTick sampleLedger "ORDER-1" "254712345678" none "unknown" 9 =
        (sampleLedger, false) ∧
     (txnStatus sampleLedger "ORDER-1" = some "pending" →
      txnStatus (pollTick sampleLedger "ORDER-1" "254712345678" none "unknown" 9).1
          "ORDER-1" = some "pending")) :=
  ⟨by decide,
   poll_unmapped_keeps_state_and_timer sampleLedger "ORDER-1" "254712345678"
     none "unknown" 9 (by decide)⟩

/-- C2 counterexample: with `loan_amount: 0` in the request, a settling
poll tick credits the default 50000, not the requested loan amount 0 —
JS `loan_amount || 50000` treats the number 0 as absent.  The sample user
starts at balance 25, so crediting "the loan amount taken from the
request" would end at 25; the code ends at 50025. -/
theorem poll_settle_zero_loan_amount_counterexample :
    balanceOf sampleLedger "254712345678" = 25 ∧
    balanceOf (pollTick sampleLedger "ORDER-1" "254712345678" (some 0) "completed" 7).1
        "254712345678" = 50025 ∧
    (50025 : Int) ≠ 25 + 0 := by decide

/-- C2 (amended): a poll tick that maps the gateway status to settle
(`completed` or `processing`, case-insensitively) applies all four side
effects: transaction marked `completed`, fee-paid flag set, balance
credited by the requested loan amount — with the default 50000 when the
request's `loan_amount` is absent *or zero/falsy* (`loan_amount || 50000`)
— and exactly one new `loan_disbursement` transaction whose metadata
references the settled transaction. -/
theorem poll_settle_side_effects (st : Ledger) (R p : String) (la : Option Int)
    (gs : String) (now : Nat)
    (hgs : strToLower gs = "completed" ∨ strToLower gs = "processing")
    (hu : (findUser st p).isSome)
    (htxn : (st.transactions.find? (fun t => t.reference == R)).isSome)
    (hfresh : ∀ x ∈ st.transactions, x.reference ≠ loanReference now) :
    txnStatus (pollTick st R p la gs now).1 R = some "completed" ∧
    feePaidOf (pollTick st R p la gs now).1 p = some true ∧
    balanceOf (pollTick st R p la gs now).1 p = balanceOf st p + jsOrInt la 50000 ∧
    disbursementCount (pollTick st R p la gs now).1 R = disbursementCount st R + 1 := by
  obtain ⟨h1, h2, h3, h4, h5⟩ := pollTick_settle_obs st R p la gs now hgs hu hfresh
  exact ⟨h5 htxn, h3, h2, h4⟩

/-- Witness for the amended C2 at a concrete ledger, `loan_amount = 4000`,
gateway status `"completed"`. -/
theorem poll_settle_side_effects_witness :
    ((strToLower "completed" = "completed" ∨ strToLower "completed" = "processing") ∧
     (findUser sampleLedger "254712345678").isSome ∧
     (sampleLedger.transactions.find? (fun t => t.reference == "ORDER-1")).isSome ∧
     (∀ x ∈ sampleLedger.transactions, x.reference ≠ loanReference 7)) ∧
    (txnStatus (pollTick sampleLedger "ORDER-1" "254712345678" (some 4000)
        "completed" 7).1 "ORDER-1" = some "completed" ∧
     feePaidOf (pollTick sampleLedger "ORDER-1" "254712345678" (some 4000)
        "completed" 7).1 "254712345678" = some true ∧
     balanceOf (pollTick sampleLedger "ORDER-1" "254712345678" (some 4000)
        "completed" 7).1 "254712345678" =
       balanceOf sampleLedger "254712345678" + jsOrInt (some 4000) 50000 ∧
     disbursementCount (pollTick sampleLedger "ORDER-1" "254712345678" (some 4000)
        "completed" 7).1 "ORDER-1" =
       disbursementCount sampleLedger "ORDER-1" + 1) :=
  ⟨⟨by decide, by decide, by decide, by decide⟩,
   poll_settle_side_effects sampleLedger "ORDER-1" "254712345678" (some 4000)
     "completed" 7 (by decide) (by decide) (by decide) (by decide)⟩

/-- C1: when both convergent signals arrive for the same settled
transaction — the poll driver observes gateway status `completed` and a
webhook callback reporting `completed` is delivered — the settlement side
effect is applied exactly once, in either delivery order: the balance is
credited exactly once and exactly one `loan_disbursement` transaction is
created for the settled reference.  (In the DB variant the `/callback`
route only acknowledges and never touches the ledger, so only the poll
driver settles; it then clears its own interval.) -/
theorem settlement_applied_exactly_once (st : Ledger) (R p : String) (la : Option Int)
    (b : WebhookBody) (now : Nat)
    (_hb : b.status = some "completed")
    (hu : (findUser st p).isSome)
    (hfresh : ∀ x ∈ st.transactions, x.reference ≠ loanReference now) :
    (balanceOf (callbackHandler (pollTick st R p la "completed" now).1 b).1 p =
        balanceOf st p + jsOrInt la 50000 ∧
     disbursementCount (callbackHandler (pollTick st R p la "completed" now).1 b).1 R =
        disbursementCount st R + 1 ∧
     (pollTick st R p la "completed" now).2 = true) ∧
    (balanceOf (pollTick (callbackHandler st b).1 R p la "completed" now).1 p =
        balanceOf st p + jsOrInt la 50000 ∧
     disbursementCount (pollTick (callbackHandler st b).1 R p la "completed" now).1 R =
        disbursementCount st R + 1) := by
  have hgs : strToLower "completed" = "completed" ∨ strToLower "completed" = "processing" :=
    Or.inl (by decide)
  obtain ⟨h1, h2, h3, h4, _⟩ := pollTick_settle_obs st R p la "completed" now hgs hu hfresh
  exact ⟨⟨h2, h4, h1⟩, ⟨h2, h4⟩⟩

/-- Witness for C1 at a concrete ledger and a concrete `completed`
webhook body, both delivery orders. -/
theorem settlement_applied_exactly_once_witness :
    (({ transaction_reference := some "ORDER-1", status := some "completed" } :
        WebhookBody).status = some "completed" ∧
     (findUser sampleLedger "254712345678").isSome ∧
     (∀ x ∈ sampleLedger.transactions, x.reference ≠ loanReference 7)) ∧
    ((balanceOf (callbackHandler (pollTick sampleLedger "ORDER-1" "254712345678"
          (some 4000) "completed" 7).1
          { transaction_reference := some "ORDER-1", status := some "completed" }).1
          "254712345678" =
        balanceOf sampleLedger "254712345678" + jsOrInt (some 4000) 50000 ∧
      disbursementCount (callbackHandler (pollTick sampleLedger "ORDER-1" "254712345678"
          (some 4000) "completed" 7).1
          { transaction_reference := some "ORDER-1", status := some "completed" }).1
          "ORDER-1" =
        disbursementCount sampleLedger "ORDER-1" + 1 ∧
      (pollTick sampleLedger "ORDER-1" "254712345678" (some 4000) "completed" 7).2 = true) ∧
     (balanceOf (pollTick (callbackHandler sampleLedger
          { transaction_reference := some "ORDER-1", status := some "completed" }).1
          "ORDER-1" "254712345678" (some 4000) "completed" 7).1 "254712345678" =
        balanceOf sampleLedger "254712345678" + jsOrInt (some 4000) 50000 ∧
      disbursementCount (pollTick (callbackHandler sampleLedger
          { transaction_reference := some "ORDER-1", status := some "completed" }).1
          "ORDER-1" "254712345678" (some 4000) "completed" 7).1 "ORDER-1" =
        disbursementCount sampleLedger "ORDER-1" + 1)) :=
  ⟨⟨by decide, by decide, by decide⟩,
   settlement_applied_exactly_once sampleLedger "ORDER-1" "254712345678" (some 4000)
     { transaction_reference := some "ORDER-1", status := some "completed" } 7
     (by decide) (by decide) (by decide)⟩

/-- C7: for a valid phone, a withdrawal below the 100-unit minimum (or
with no amount) is rejected with the business-rule error and the store is
untouched; and whatever the user's balance, a withdrawal without
`has_paid_fee` is rejected with 403, no withdrawal transaction is
recorded, and the balance is unchanged. -/
theorem withdraw_rejections (st : Ledger) (phone : Option String) (amount : Option Int)
    (now : Nat) (fp : String)
    (hp : phone.bind formatPhone = some fp) :
    (amount = none →
      withdrawHandler st phone amount now =
        ({ statusCode := 400, success := false,
           errorMsg := some "Minimum withdrawal is KES 100",
           reference := none, newBalance := none }, st)) ∧
    (∀ a : Int, amount = some a → a < 100 →
      withdrawHandler st phone amount now =
        ({ statusCode := 400, success := false,
           errorMsg := some "Minimum withdrawal is KES 100",
           reference := none, newBalance := none }, st)) ∧
    (∀ a : Int, amount = some a → 100 ≤ a →
      (getOrCreateUser st fp).1.has_paid_fee = false →
      (withdrawHandler st phone amount now).1 =
        { statusCode := 403, success := false,
          errorMsg := some "You must pay the service fee before withdrawing",
          reference := none, newBalance := none } ∧
      (withdrawHandler st phone amount now).2.transactions = st.transactions ∧
      balanceOf (withdrawHandler st phone amount now).2 fp = balanceOf st fp) := by
  refine ⟨?_, ?_, ?_⟩
  · intro ha; subst ha
    unfold withdrawHandler
    rw [hp]
  · intro a ha hlt; subst ha
    unfold withdrawHandler
    rw [hp]
    dsimp only
    rw [if_pos hlt]
  · intro a ha hge hfee; subst ha
    unfold withdrawHandler
    rw [hp]
    dsimp only
    rw [if_neg (not_lt.mpr hge)]
    cases hg : getOrCreateUser st fp with
    | mk u s1 =>
      rw [hg] at hfee
      dsimp only
      rw [if_pos hfee]
      refine ⟨rfl, ?_, ?_⟩
      · have := transactions_getOrCreateUser st fp
        rw [hg] at this
        exact this
      · have := balanceOf_getOrCreateUser st fp
        rw [hg] at this
        exact this

/-- Witness for C7: valid phone `"0712345678"`, both an under-minimum
amount (50) and an at-minimum amount (100) against a fee-unpaid user. -/
theorem withdraw_rejections_witness :
    ((some "0712345678").bind formatPhone = some "254712345678") ∧
    ((some 50 : Option Int) = some 50 ∧ (50 : Int) < 100 ∧
      withdrawHandler sampleLedger (some "0712345678") (some 50) 9 =
        ({ statusCode := 400, success := false,
           errorMsg := some "Minimum withdrawal is KES 100",
           reference := none, newBalance := none }, sampleLedger)) ∧
    ((100 : Int) ≤ 100 ∧
      (getOrCreateUser sampleLedger "254712345678").1.has_paid_fee = false ∧
      (withdrawHandler sampleLedger (some "0712345678") (some 100) 9).1 =
        { statusCode := 403, success := false,
          errorMsg := some "You must pay the service fee before withdrawing",
          reference := none, newBalance := none } ∧
      (withdrawHandler sampleLedger (some "0712345678") (some 100) 9).2.transactions =
        sampleLedger.transactions ∧
      balanceOf (withdrawHandler sampleLedger (some "0712345678") (some 100) 9).2
          "254712345678" = balanceOf sampleLedger "254712345678") :=
  ⟨by decide,
   ⟨rfl, by decide,
    (withdraw_rejections sampleLedger (some "0712345678") (some 50) 9 "254712345678"
      (by decide)).2.1 50 rfl (by decide)⟩,
   ⟨by decide, by decide,
    (withdraw_rejections sampleLedger (some "0712345678") (some 100) 9 "254712345678"
      (by decide)).2.2 100 rfl (by decide) (by decide)⟩⟩

/-- C5 counterexample: `GET /balance/:phone` is not read-only — on an
empty store, querying the balance of a valid but unknown phone inserts a
fresh user row, so the store changes. -/
theorem balance_query_creates_user_counterexample :
    (balanceHandler { users := [], transactions := [] } "0712345678").2 ≠
      { users := [], transactions := [] } := by decide

/-- C5 (amended): `GET /transactions/:phone` is read-only, and
`GET /balance/:phone` never touches the transactions table; the balance
query leaves the whole store unchanged except that the first query for a
valid phone with no user row lazily creates that row (zero balance,
`has_paid_fee = false`). -/
theorem readonly_queries_amended (st : Ledger) (p : String) :
    (transactionsHandler st p).2 = st ∧
    (balanceHandler st p).2.transactions = st.transactions ∧
    ((balanceHandler st p).2 = st ∨
      (∃ fp, formatPhone p = some fp ∧ findUser st fp = none ∧
        (balanceHandler st p).2 =
          { st with users := st.users ++
              [{ phone := fp, balance := 0, has_paid_fee := false }] })) := by
  refine ⟨?_, ?_, ?_⟩
  · unfold transactionsHandler
    cases formatPhone p <;> rfl
  · unfold balanceHandler
    cases hf : formatPhone p with
    | none => rfl
    | some fp =>
      dsimp only
      cases hg : getOrCreateUser st fp with
      | mk u s1 =>
        have := transactions_getOrCreateUser st fp
        rw [hg] at this
        exact this
  · unfold balanceHandler
    cases hf : formatPhone p with
    | none => exact Or.inl rfl
    | some fp =>
      dsimp only
      unfold getOrCreateUser
      cases hfu : st.users.find? (fun u => u.phone == fp) with
      | some u => exact Or.inl rfl
      | none =>
        refine Or.inr ⟨fp, rfl, ?_, rfl⟩
        unfold findUser
        exact hfu

/-- With enough fuel, `Nat.toDigitsCore` produces the base-10 digits
(most significant first) in front of the accumulator. -/
theorem toDigitsCore_eq_digits :
    ∀ (f n : Nat) (ds : List Char), n ≠ 0 → n < f →
      Nat.toDigitsCore 10 f n ds =
        ((Nat.digits 10 n).map Nat.digitChar).reverse ++ ds := by
  intro f
  induction f with
  | zero => intro n ds h0 hf; omega
  | succ f ih =>
    intro n ds h0 hf
    rw [Nat.toDigitsCore]
    by_cases hq : n / 10 = 0
    · rw [if_pos hq]
      have hn10 : n < 10 := (Nat.div_eq_zero_iff (by norm_num)).mp hq
      rw [Nat.digits_def' (by norm_num : (1:ℕ) < 10) (Nat.pos_of_ne_zero h0), hq,
        Nat.digits_zero]
      simp [Nat.mod_eq_of_lt hn10]
    · rw [if_neg hq]
      have hlt : n / 10 < f := by
        have h1 : n / 10 < n := Nat.div_lt_self (Nat.pos_of_ne_zero h0) (by norm_num)
        omega
      rw [ih (n / 10) (Nat.digitChar (n % 10) :: ds) hq hlt,
        Nat.digits_def' (by norm_num : (1:ℕ) < 10) (Nat.pos_of_ne_zero h0)]
      simp

/-- `Nat.digitChar` is injective below 10. -/
theorem digitChar_inj_lt10 : ∀ a < 10, ∀ b < 10, Nat.digitChar a = Nat.digitChar b → a = b := by
  decide

theorem map_digitChar_inj :
    ∀ (l1 l2 : List Nat), (∀ x ∈ l1, x < 10) → (∀ x ∈ l2, x < 10) →
      l1.map Nat.digitChar = l2.map Nat.digitChar → l1 = l2 := by
  intro l1
  induction l1 with
  | nil =>
    intro l2 _ _ h
    cases l2 with
    | nil => rfl
    | cons b t2 => simp at h
  | cons a t ih =>
    intro l2 h1 h2 h
    cases l2 with
    | nil => simp at h
    | cons b t2 =>
      simp only [List.map_cons, List.cons.injEq] at h
      have ha : a = b := digitChar_inj_lt10 a (h1 a (List.mem_cons_self a t)) b
        (h2 b (List.mem_cons_self b t2)) h.1
      have ht : t = t2 := ih t2 (fun x hx => h1 x (List.mem_cons_of_mem a hx))
        (fun x hx => h2 x (List.mem_cons_of_mem b hx)) h.2
      rw [ha, ht]

/-- The decimal printer of `Nat` is injective. -/
theorem natRepr_injective {n m : Nat} (h : Nat.repr n = Nat.repr m) : n = m := by
  have hdata : Nat.toDigits 10 n = Nat.toDigits 10 m := congrArg String.data h
  unfold Nat.toDigits at hdata
  by_cases hn : n = 0 <;> by_cases hm : m = 0
  · rw [hn, hm]
  · exfalso
    rw [hn] at hdata
    rw [toDigitsCore_eq_digits (m + 1) m [] hm (Nat.lt_succ_self m)] at hdata
    have h0 : Nat.toDigitsCore 10 1 0 [] = ['0'] := rfl
    rw [h0, List.append_nil] at hdata
    have hrev : (Nat.digits 10 m).map Nat.digitChar = ['0'] := by
      have := congrArg List.reverse hdata
      simpa using this.symm
    cases hd : Nat.digits 10 m with
    | nil => rw [hd] at hrev; simp at hrev
    | cons d t =>
      rw [hd] at hrev
      cases t with
      | cons d2 t2 => simp at hrev
      | nil =>
        simp only [List.map_cons, List.map_nil, List.cons.injEq] at hrev
        have hd10 : d < 10 := Nat.digits_lt_base (by norm_num) (hd ▸ List.mem_cons_self d [])
        have hd0 : d = 0 := digitChar_inj_lt10 d hd10 0 (by norm_num) (by
          rw [hrev.1]; rfl)
        have hm0 : m = 0 := by
          have hof := (Nat.ofDigits_digits 10 m).symm
          rw [hd, hd0] at hof
          simpa [Nat.ofDigits] using hof
        exact hm hm0
  · exfalso
    rw [hm] at hdata
    rw [toDigitsCore_eq_digits (n + 1) n [] hn (Nat.lt_succ_self n)] at hdata
    have h0 : Nat.toDigitsCore 10 1 0 [] = ['0'] := rfl
    rw [h0, List.append_nil] at hdata
    have hrev : (Nat.digits 10 n).map Nat.digitChar = ['0'] := by
      have := congrArg List.reverse hdata
      simpa using this
    cases hd : Nat.digits 10 n with
    | nil => rw [hd] at hrev; simp at hrev
    | cons d t =>
      rw [hd] at hrev
      cases t with
      | cons d2 t2 => simp at hrev
      | nil =>
        simp only [List.map_cons, List.map_nil, List.cons.injEq] at hrev
        have hd10 : d < 10 := Nat.digits_lt_base (by norm_num) (hd ▸ List.mem_cons_self d [])
        have hd0 : d = 0 := digitChar_inj_lt10 d hd10 0 (by norm_num) (by
          rw [hrev.1]; rfl)
        have hn0 : n = 0 := by
          have hof := (Nat.ofDigits_digits 10 n).symm
          rw [hd, hd0] at hof
          simpa [Nat.ofDigits] using hof
        exact hn hn0
  · rw [toDigitsCore_eq_digits (n + 1) n [] hn (Nat.lt_succ_self n),
      toDigitsCore_eq_digits (m + 1) m [] hm (Nat.lt_succ_self m),
      List.append_nil, List.append_nil] at hdata
    have hmap : (Nat.digits 10 n).map Nat.digitChar = (Nat.digits 10 m).map Nat.digitChar := by
      have := congrArg List.reverse hdata
      simpa using this
    have hdig : Nat.digits 10 n = Nat.digits 10 m :=
      map_digitChar_inj _ _ (fun x hx => Nat.digits_lt_base (by norm_num) hx)
        (fun x hx => Nat.digits_lt_base (by norm_num) hx) hmap
    have := congrArg (Nat.ofDigits 10) hdig
    rwa [Nat.ofDigits_digits, Nat.ofDigits_digits] at this

/-- `"ORDER-" + Date.now()` references collide exactly on equal
timestamps. -/
theorem payReference_injective {n m : Nat} (h : payReference n = payReference m) :
    n = m := by
  unfold payReference at h
  have hdat := congrArg String.data h
  rw [String.data_append, String.data_append] at hdat
  exact natRepr_injective (String.ext (List.append_cancel_left hdat))

/-- The three gateway outcomes of `/pay` on valid input, each as one
equation. -/
theorem payHandler_branches (st : Ledger) (phone : Option String) (amount : Option Int)
    (la : Option Int) (txref : Option String) (failMsg : Option String) (errMsg : String)
    (now : Nat) (fp : String) (a : Int)
    (hp : phone.bind formatPhone = some fp) (ha : amount = some a) (h1 : 1 ≤ a)
    (hfresh : ∀ x ∈ st.transactions, x.reference ≠ payReference now) :
    payHandler st phone amount la (.ok txref) now =
      some ({ statusCode := 200, success := true, reference := some (payReference now),
              errorMsg := none },
            { (getOrCreateUser st fp).2 with transactions :=
                (getOrCreateUser st fp).2.transactions ++ [feeTxnOf fp a la txref now] },
            txref.isSome) ∧
    payHandler st phone amount la (.failed failMsg) now =
      some ({ statusCode := 400, success := false, reference := none,
              errorMsg := some (jsOrStr failMsg "STK push failed to send. Try again later.") },
            { (getOrCreateUser st fp).2 with transactions :=
                (getOrCreateUser st fp).2.transactions ++ [failTxnOf fp a la now] },
            false) ∧
    payHandler st phone amount la (.thrown errMsg) now =
      some ({ statusCode := 500, success := false, reference := some (payReference now),
              errorMsg := some errMsg },
            { (getOrCreateUser st fp).2 with transactions :=
                (getOrCreateUser st fp).2.transactions ++ [errTxnOf fp a la now] },
            false) := by
  subst ha
  have hfresh1 : ∀ x ∈ (getOrCreateUser st fp).2.transactions,
      x.reference ≠ payReference now := by
    rw [transactions_getOrCreateUser]; exact hfresh
  refine ⟨?_, ?_, ?_⟩ <;>
  · unfold payHandler
    rw [hp]
    dsimp only
    rw [if_neg (not_lt.mpr h1)]
    rw [createTransaction_fresh _ _ hfresh1]

/-- C4 counterexample: a `/pay` call whose gateway initialize answered
with `success` falsy (valid phone and amount, empty store, millisecond
99) is answered `400 {success:false, error}` with no `reference` field,
even though the claim requires a reference on every outcome path. -/
theorem pay_failure_no_reference_counterexample :
    (payHandler { users := [], transactions := [] } (some "0712345678") (some 150)
        none (.failed none) 99).map (fun r => r.1.reference) = some none ∧
    (none : Option String) ≠ some (payReference 99) := by
  constructor
  · have h := (payHandler_branches { users := [], transactions := [] }
      (some "0712345678") (some 150) none none none "" 99 "254712345678" 150
      (by decide) rfl (by decide) (by decide)).2.1
    rw [h]
    rfl
  · intro h; cases h

/-- C4 (amended): the `/pay` response carries the reference on the
success path and on the internal-error path, but the gateway-reported
failure path responds with `{success:false, error}` only — no reference —
although a failed `service_fee` row is still recorded under a fresh
reference. -/
theorem pay_reference_on_outcomes (st : Ledger) (phone : Option String)
    (amount : Option Int) (la : Option Int) (txref : Option String)
    (failMsg : Option String) (errMsg : String) (now : Nat) (fp : String) (a : Int)
    (hp : phone.bind formatPhone = some fp) (ha : amount = some a) (h1 : 1 ≤ a)
    (hfresh : ∀ x ∈ st.transactions, x.reference ≠ payReference now) :
    (payHandler st phone amount la (.ok txref) now).map (fun r => r.1.reference) =
      some (some (payReference now)) ∧
    (payHandler st phone amount la (.thrown errMsg) now).map (fun r => r.1.reference) =
      some (some (payReference now)) ∧
    (payHandler st phone amount la (.failed failMsg) now).map (fun r => r.1.reference) =
      some none ∧
    (payHandler st phone amount la (.failed failMsg) now).map
        (fun r => r.2.1.transactions) =
      some ((getOrCreateUser st fp).2.transactions ++ [failTxnOf fp a la now]) := by
  obtain ⟨hok, hfail, hthrown⟩ :=
    payHandler_branches st phone amount la txref failMsg errMsg now fp a hp ha h1 hfresh
  rw [hok, hfail, hthrown]
  exact ⟨rfl, rfl, rfl, rfl⟩

/-- Witness for the amended C4 at a concrete store and request. -/
theorem pay_reference_on_outcomes_witness :
    ((some "0712345678").bind formatPhone = some "254712345678" ∧
     (some 150 : Option Int) = some 150 ∧ (1 : Int) ≤ 150 ∧
     (∀ x ∈ sampleLedger.transactions, x.reference ≠ payReference 99)) ∧
    ((payHandler sampleLedger (some "0712345678") (some 150) none (.ok (some "TX1"))
        99).map (fun r => r.1.reference) = some (some (payReference 99)) ∧
     (payHandler sampleLedger (some "0712345678") (some 150) none (.thrown "boom")
        99).map (fun r => r.1.reference) = some (some (payReference 99)) ∧
     (payHandler sampleLedger (some "0712345678") (some 150) none (.failed none)
        99).map (fun r => r.1.reference) = some none ∧
     (payHandler sampleLedger (some "0712345678") (some 150) none (.failed none)
        99).map (fun r => r.2.1.transactions) =
      some ((getOrCreateUser sampleLedger "254712345678").2.transactions ++
        [failTxnOf "254712345678" 150 none 99])) :=
  ⟨⟨by decide, rfl, by decide, by decide⟩,
   pay_reference_on_outcomes sampleLedger (some "0712345678") (some 150) none
     (some "TX1") none "boom" 99 "254712345678" 150 (by decide) rfl (by decide)
     (by decide)⟩

/-- C6 counterexample: two distinct valid initiations (different phones
and amounts) that fall in the same millisecond (`Date.now() = 99`) are
both answered with the reference `"ORDER-99"` — the returned reference is
a function of the timestamp alone, so it is not unique across
initiations. -/
theorem pay_reference_collision_counterexample :
    (payHandler { users := [], transactions := [] } (some "0712345678") (some 150)
        none (.ok (some "TX1")) 99).map (fun r => r.1.reference) =
      some (some "ORDER-99") ∧
    (payHandler { users := [], transactions := [] } (some "0722000001") (some 200)
        none (.ok (some "TX2")) 99).map (fun r => r.1.reference) =
      some (some "ORDER-99") := by decide

/-- C6 (amended): the reference returned by a valid initiation is
`ORDER-<timestamp>`, so any two initiations at distinct milliseconds get
distinct references (uniqueness holds only per millisecond); and on the
success path the reference is immediately queryable through
`GET /receipt/:reference` with status `pending`. -/
theorem pay_reference_unique_per_ms_and_pending :
    (∀ n m : Nat, n ≠ m → payReference n ≠ payReference m) ∧
    (∀ (st : Ledger) (phone : Option String) (amount la : Option Int)
        (txref : Option String) (now : Nat) (fp : String) (a : Int),
      phone.bind formatPhone = some fp → amount = some a → 1 ≤ a →
      (∀ x ∈ st.transactions, x.reference ≠ payReference now) →
      (payHandler st phone amount la (.ok txref) now).map (fun r => r.1.reference) =
        some (some (payReference now)) ∧
      (payHandler st phone amount la (.ok txref) now).map
          (fun r => receiptHandler r.2.1 (payReference now)) =
        some { statusCode := 200, success := true, receiptStatus := some "pending" }) := by
  constructor
  · intro n m hne h
    exact hne (payReference_injective h)
  · intro st phone amount la txref now fp a hp ha h1 hfresh
    obtain ⟨hok, _, _⟩ :=
      payHandler_branches st phone amount la txref none "" now fp a hp ha h1 hfresh
    rw [hok]
    refine ⟨rfl, ?_⟩
    have hfresh1 : ∀ x ∈ (getOrCreateUser st fp).2.transactions,
        x.reference ≠ payReference now := by
      rw [transactions_getOrCreateUser]; exact hfresh
    have hnone : (getOrCreateUser st fp).2.transactions.find?
        (fun t => t.reference == payReference now) = none :=
      List.find?_eq_none.mpr (fun x hx => by simpa using hfresh1 x hx)
    unfold receiptHandler
    rw [Option.map_some']
    dsimp only
    rw [List.find?_append, hnone]
    simp [feeTxnOf]

/-- Witness for the amended C6: timestamps 1 and 2 give distinct
references, and a concrete success-path initiation is immediately
queryable as `pending`. -/
theorem pay_reference_unique_per_ms_and_pending_witness :
    ((1 : Nat) ≠ 2 ∧ payReference 1 ≠ payReference 2) ∧
    (((some "0712345678").bind formatPhone = some "254712345678" ∧
      (some 150 : Option Int) = some 150 ∧ (1 : Int) ≤ 150 ∧
      (∀ x ∈ sampleLedger.transactions, x.reference ≠ payReference 99)) ∧
     ((payHandler sampleLedger (some "0712345678") (some 150) none (.ok (some "TX1"))
         99).map (fun r => r.1.reference) = some (some (payReference 99)) ∧
      (payHandler sampleLedger (some "0712345678") (some 150) none (.ok (some "TX1"))
         99).map (fun r => receiptHandler r.2.1 (payReference 99)) =
        some { statusCode := 200, success := true, receiptStatus := some "pending" })) :=
  ⟨⟨by decide, pay_reference_unique_per_ms_and_pending.1 1 2 (by decide)⟩,
   ⟨⟨by decide, rfl, by decide, by decide⟩,
    pay_reference_unique_per_ms_and_pending.2 sampleLedger (some "0712345678")
      (some 150) none (some "TX1") 99 "254712345678" 150 (by decide) rfl (by decide)
      (by decide)⟩⟩

theorem getReceipt_setReceipt_self (rs : Receipts) (ref : String) (r : Receipt) :
    getReceipt (setReceipt rs ref r) ref = some r := by
  unfold getReceipt setReceipt
  by_cases hany : rs.any (fun p => p.1 == ref)
  · rw [if_pos hany]
    rw [find?_map_eq _ _ _ (fun p => by by_cases hp : p.1 = ref <;> simp [hp])]
    obtain ⟨x, hx, hpx⟩ := List.any_eq_true.mp hany
    cases hf : rs.find? (fun p => p.1 == ref) with
    | none =>
      rw [List.find?_eq_none] at hf
      exact absurd hpx (hf x hx)
    | some y =>
      have hy : y.1 = ref := by simpa using List.find?_some hf
      simp [hy]
  · rw [if_neg hany]
    rw [List.find?_append]
    have hnone : rs.find? (fun p => p.1 == ref) = none := by
      rw [List.find?_eq_none]
      intro x hx hpx
      exact hany (List.any_eq_true.mpr ⟨x, hx, hpx⟩)
    rw [hnone]
    simp

theorem getReceipt_setReceipt_other (rs : Receipts) (ref : String) (r : Receipt)
    (ref2 : String) (h : ref2 ≠ ref) :
    getReceipt (setReceipt rs ref r) ref2 = getReceipt rs ref2 := by
  unfold getReceipt setReceipt
  by_cases hany : rs.any (fun p => p.1 == ref)
  · rw [if_pos hany]
    rw [find?_map_eq _ _ _ (fun p => by
      by_cases hp : p.1 = ref
      · simp [hp, Ne.symm h]
      · simp [hp])]
    cases hf : rs.find? (fun p => p.1 == ref2) with
    | none => rfl
    | some y =>
      have hy2 : y.1 = ref2 := by simpa using List.find?_some hf
      have hyne : ¬(y.1 = ref) := by rw [hy2]; exact h
      simp [hyne]
  · rw [if_neg hany]
    rw [List.find?_append]
    have hsingle : [(ref, r)].find? (fun p => p.1 == ref2) = none := by
      simp [Ne.symm h]
    rw [hsingle]
    cases rs.find? (fun p => p.1 == ref2) <;> rfl

/-- C3 counterexample: on gateway status `"processing"` the poll driver
settles (`pollStatusMapping` = settle) but the webhook processor moves
the same receipt to `cancelled` — the two drivers do not apply the same
status mapping.  Concretely, a pending receipt `R1` receiving a
`processing` webhook ends `cancelled`. -/
theorem webhook_mapping_differs_counterexample :
    pollStatusMapping "processing" = some true ∧
    webhookStatusMapping "processing" none = false ∧
    getReceipt (processWebhookData
        [("R1", { status := some "pending", status_note := none, timestamp := none })]
        { transaction_reference := some "R1", status := some "processing" } 777) "R1" =
      some { status := some "cancelled",
             status_note := some "Payment failed or cancelled.",
             timestamp := some 777 } := by
  refine ⟨rfl, by decide, by decide⟩

/-- C3 (amended): the webhook processor locates (or lazily creates) the
receipt named by the first non-empty candidate reference field, in the
order external_reference, transaction_reference, reference,
data.transaction_reference; with no usable candidate nothing changes; its
status mapping sends `completed` (case-insensitive) or `result_code = 0`
to `processing` and *every* other status — including `processing`,
`failed`, `cancelled` and unmapped values, unlike the poll driver's
mapping — to `cancelled`, refreshing the timestamp either way; other
receipts are untouched. -/
theorem webhook_locates_first_candidate_and_maps (rs : Receipts) (b : WebhookBody)
    (now : Nat) :
    (firstWebhookRef b = none → processWebhookData rs b now = rs) ∧
    (∀ ref, firstWebhookRef b = some ref →
      getReceipt (processWebhookData rs b now) ref =
        some (if webhookStatusMapping (strToLower (b.status.getD "")) b.result_code then
          { (getReceipt rs ref).getD {} with
              status := some "processing", status_note := some webhookOkNote,
              timestamp := some now }
        else
          { (getReceipt rs ref).getD {} with
              status := some "cancelled"
              status_note := some (jsOrStr b.failure_reason
                (jsOrStr b.result_desc "Payment failed or cancelled."))
              timestamp := some now }) ∧
      (∀ ref2, ref2 ≠ ref →
        getReceipt (processWebhookData rs b now) ref2 = getReceipt rs ref2)) := by
  constructor
  · intro hnone
    unfold processWebhookData
    rw [hnone]
  · intro ref href
    unfold processWebhookData
    rw [href]
    dsimp only
    unfold webhookStatusMapping
    constructor
    · by_cases hc : strToLower (b.status.getD "") = "completed" ∨ b.result_code = some 0
      · rw [if_pos hc, if_pos (decide_eq_true hc), getReceipt_setReceipt_self]
      · rw [if_neg hc, if_neg (fun h => hc (of_decide_eq_true h)),
          getReceipt_setReceipt_self]
    · intro ref2 h2
      by_cases hc : strToLower (b.status.getD "") = "completed" ∨ b.result_code = some 0
      · rw [if_pos hc, getReceipt_setReceipt_other _ _ _ _ h2]
      · rw [if_neg hc, getReceipt_setReceipt_other _ _ _ _ h2]

/-- Witness for the amended C3: a body naming `R1` through its second
candidate field with status `failed`; `R1` is cancelled with the failure
reason, the unrelated `R2` is untouched. -/
theorem webhook_locates_first_candidate_and_maps_witness :
    (firstWebhookRef
      { transaction_reference := some "R1"
        status := some "failed"
        failure_reason := some "user cancelled" } = some "R1") ∧
    (getReceipt (processWebhookData
        [("R1", { status := some "pending", status_note := none, timestamp := none }),
         ("R2", { status := some "pending", status_note := none, timestamp := none })]
        { transaction_reference := some "R1"
          status := some "failed"
          failure_reason := some "user cancelled" } 777) "R1" =
      some (if webhookStatusMapping (strToLower ((some "failed" : Option String).getD ""))
          none then
        { (getReceipt
            [("R1", { status := some "pending", status_note := none, timestamp := none }),
             ("R2", { status := some "pending", status_note := none, timestamp := none })]
            "R1").getD {} with
            status := some "processing"
            status_note := some webhookOkNote
            timestamp := some 777 }
      else
        { (getReceipt
            [("R1", { status := some "pending", status_note := none, timestamp := none }),
             ("R2", { status := some "pending", status_note := none, timestamp := none })]
            "R1").getD {} with
            status := some "cancelled"
            status_note := some (jsOrStr (some "user cancelled")
              (jsOrStr none "Payment failed or cancelled."))
            timestamp := some 777 }) ∧
     ("R2" : String) ≠ "R1" ∧
     getReceipt (processWebhookData
        [("R1", { status := some "pending", status_note := none, timestamp := none }),
         ("R2", { status := some "pending", status_note := none, timestamp := none })]
        { transaction_reference := some "R1"
          status := some "failed"
          failure_reason := some "user cancelled" } 777) "R2" =
      getReceipt
        [("R1", { status := some "pending", status_note := none, timestamp := none }),
         ("R2", { status := some "pending", status_note := none, timestamp := none })]
        "R2") := by
  have h := webhook_locates_first_candidate_and_maps
    [("R1", { status := some "pending", status_note := none, timestamp := none }),
     ("R2", { status := some "pending", status_note := none, timestamp := none })]
    { transaction_reference := some "R1"
      status := some "failed"
      failure_reason := some "user cancelled" } 777
  obtain ⟨hmain, hother⟩ := h.2 "R1" (by decide)
  exact ⟨by decide, hmain, by decide, hother "R2" (by decide)⟩

/-- A cron run moves each receipt through `cronUpdate` pointwise. -/
theorem getReceipt_cronTick (rs : Receipts) (now : Nat) (ref : String) :
    getReceipt (cronTick rs now) ref = (getReceipt rs ref).map (cronUpdate now) := by
  unfold getReceipt cronTick
  rw [find?_map_eq rs (fun p => (p.1, cronUpdate now p.2)) (fun p => p.1 == ref)
    (fun p => rfl)]
  cases rs.find? (fun p => p.1 == ref) <;> rfl

/-- C10: one run of the legacy cron job sets every stored receipt that is
`processing` with a timestamp at least 24 hours (86,400,000 ms) in the
past to `loan_released` with the fixed release note (its timestamp kept),
and returns every other receipt unchanged. -/
theorem cron_releases_due_processing (rs : Receipts) (now : Nat) (ref : String)
    (r : Receipt) (h : getReceipt rs ref = some r) :
    (r.status = some "processing" → ∀ ts, r.timestamp = some ts →
      ts + releaseDelayMs ≤ now →
      getReceipt (cronTick rs now) ref =
        some { r with status := some "loan_released",
                      status_note := some cronReleaseNote }) ∧
    (¬(r.status = some "processing" ∧ ∃ ts, r.timestamp = some ts ∧
        ts + releaseDelayMs ≤ now) →
      getReceipt (cronTick rs now) ref = some r) := by
  constructor
  · intro hs ts hts hdue
    rw [getReceipt_cronTick, h, Option.map_some']
    unfold cronUpdate
    rw [if_pos hs, hts]
    dsimp only
    rw [if_pos hdue]
  · intro hneg
    rw [getReceipt_cronTick, h, Option.map_some']
    unfold cronUpdate
    by_cases hs : r.status = some "processing"
    · rw [if_pos hs]
      cases hts : r.timestamp with
      | none => rfl
      | some ts =>
        dsimp only
        rw [if_neg (fun hdue => hneg ⟨hs, ts, hts, hdue⟩)]
    · rw [if_neg hs]

/-- Witness for C10: a `processing` receipt stamped at ms 1000 is released
once the clock passes 1000 + 24h; the same receipt under an earlier clock
is untouched. -/
theorem cron_releases_due_processing_witness :
    (getReceipt [("R1", { status := some "processing", status_note := none, timestamp := some 1000 })] "R1" =
      some { status := some "processing", status_note := none, timestamp := some 1000 }) ∧
    ((some "processing" : Option String) = some "processing" ∧
     (1000 : Nat) + releaseDelayMs ≤ 86401000 ∧
     getReceipt (cronTick [("R1", { status := some "processing", status_note := none, timestamp := some 1000 })] 86401000) "R1" =
      some { status := some "loan_released", status_note := some cronReleaseNote, timestamp := some 1000 }) ∧
    (¬((some "processing" : Option String) = some "processing" ∧
        ∃ ts, (some 1000 : Option Nat) = some ts ∧ ts + releaseDelayMs ≤ 86400999) ∧
     getReceipt (cronTick [("R1", { status := some "processing", status_note := none, timestamp := some 1000 })] 86400999) "R1" =
      some { status := some "processing", status_note := none, timestamp := some 1000 }) := by
  refine ⟨by decide, ⟨rfl, by decide, ?_⟩, ⟨by decide, ?_⟩⟩
  · exact (cron_releases_due_processing
      [("R1", { status := some "processing", status_note := none, timestamp := some 1000 })]
      86401000 "R1"
      { status := some "processing", status_note := none, timestamp := some 1000 }
      (by decide)).1 rfl 1000 rfl (by decide)
  · exact (cron_releases_due_processing
      [("R1", { status := some "processing", status_note := none, timestamp := some 1000 })]
      86400999 "R1"
      { status := some "processing", status_note := none, timestamp := some 1000 }
      (by decide)).2 (by decide)
